import Mathlib

/-!
Verification development for the `passfd` crate: passing file descriptors
between processes over Unix sockets via `SCM_RIGHTS` ancillary data.

The shallow embedding models the two codec operations of `src/lib.rs`
(`send_fd_with_payload`, `recv_fd` on `RawFd`, plus the forwarding
implementation on `UnixStream` and the default-payload `send_fd`) and the
tokio readiness adapter of `src/tokio.rs` (`SendFd::poll`, `RecvFd::poll`).

Kernel behaviour (the outcome of `sendmsg`, `recvmsg`, `fcntl`) is supplied
by explicit world records; the functions return both the Rust-level result
and the ordered list of syscall actions the code performs, so that
descriptor-hygiene properties (which fds get `fcntl`/`close` applied) are
statable.
-/

deriving instance DecidableEq for Except

namespace Passfd

/-! ## libc constants (Linux x86_64, the platform named in the source comments) -/

def SOL_SOCKET : Int := 1

def SCM_RIGHTS : Int := 1

/-- `MSG_CTRUNC` bit in `msg_flags`: control data was truncated. -/
def MSG_CTRUNC : Int := 8

/-- `EAGAIN` = `EWOULDBLOCK` on Linux. -/
def EAGAIN : Int := 11

def F_SETFD : Int := 2

def FD_CLOEXEC : Int := 1

/-- `mem::size_of::<c_int>()`. -/
def sizeofInt : Nat := 4

/-- `mem::size_of::<libc::cmsghdr>()` on Linux x86_64. -/
def sizeofCmsghdr : Nat := 16

/-- `CMSG_ALIGN`: round up to the alignment of `size_t` (8 bytes). -/
def CMSG_ALIGN (n : Nat) : Nat := (n + 7) / 8 * 8

/-- `CMSG_SPACE(len)` = aligned header plus aligned payload. -/
def CMSG_SPACE (n : Nat) : Nat := CMSG_ALIGN n + CMSG_ALIGN sizeofCmsghdr

/-- `CMSG_LEN(len)` = aligned header plus (unaligned) payload. -/
def CMSG_LEN (n : Nat) : Nat := CMSG_ALIGN sizeofCmsghdr + n

/-! ## Rust `std::io::Error` model -/

inductive ErrorKind where
  | unexpectedEof
  | invalidData
  | wouldBlock
  | otherOs (errno : Int)
  deriving DecidableEq

structure IOError where
  kind : ErrorKind
  msg : String
  deriving DecidableEq

/-- `Error::last_os_error()`: the kind is derived from the current `errno`;
`EAGAIN`/`EWOULDBLOCK` maps to `WouldBlock`, all other codes keep the raw
OS error code. -/
def lastOsError (errno : Int) : IOError :=
  { kind := if errno = EAGAIN then .wouldBlock else .otherOs errno, msg := "" }

/-! ## The composed send message (`send_fd_with_payload`, lib.rs 83-131) -/

structure CmsgHdr where
  cmsg_level : Int
  cmsg_type : Int
  cmsg_len : Nat
  deriving DecidableEq

/-- The `msghdr` (together with its single iovec and control buffer) that
`send_fd_with_payload` hands to `sendmsg`. -/
structure SendMsg where
  /-- `iov_len` of the single scatter/gather entry. -/
  iov_len : Nat
  /-- the payload bytes the iovec points at. -/
  payload : List Nat
  /-- `msg_controllen`. -/
  msg_controllen : Nat
  /-- initial contents of the 256-byte staging buffer (`HeaderAlignedBuf`). -/
  ctrlInit : List Nat
  /-- the cmsg header written at `CMSG_FIRSTHDR`. -/
  hdr : CmsgHdr
  /-- the native `int` written at `CMSG_DATA`. -/
  fdData : Int
  deriving DecidableEq

/-- Syscall actions, in the order the code performs them. -/
inductive SysAction where
  | recvmsgCall (sock : Int)
  | sendmsgCall (sock : Int) (m : SendMsg)
  | fcntlCall (fd : Int) (cmd : Int) (arg : Int)
  | closeCall (fd : Int)
  deriving DecidableEq

/-- A raw file descriptor, as in `std::os::unix::io::RawFd`. -/
abbrev RawFd : Type := Int

/-! ## `send_fd_with_payload` on `RawFd` -/

/-- Kernel outcome of the one `sendmsg` call. -/
structure SendWorld where
  /-- return value of `sendmsg`. -/
  rv : Int
  /-- `errno` observed when `rv < 0`. -/
  errno : Int
  deriving DecidableEq

/-- The message `send_fd_with_payload` composes (lib.rs 84-123): zeroed
256-byte aligned staging buffer, one iovec over the payload,
`msg_controllen = CMSG_SPACE(sizeof(int))`, a cmsg header
`SOL_SOCKET`/`SCM_RIGHTS`/`CMSG_LEN(sizeof(int))` written unaligned at
`CMSG_FIRSTHDR`, and `fd` written unaligned at `CMSG_DATA`. -/
def composeMsg (fd : Int) (payload : List Nat) : SendMsg :=
  { iov_len := payload.length
    payload := payload
    msg_controllen := CMSG_SPACE sizeofInt
    ctrlInit := List.replicate 256 0
    hdr := { cmsg_level := SOL_SOCKET, cmsg_type := SCM_RIGHTS
             cmsg_len := CMSG_LEN sizeofInt }
    fdData := fd }

/-- `<RawFd as FdPassingExt>::send_fd_with_payload` (lib.rs 83-131):
compose the message, call `sendmsg` once, fail with the OS error when the
return value is negative, succeed otherwise. -/
def RawFd.sendFdWithPayload (sock : RawFd) (fd : Int) (payload : List Nat)
    (w : SendWorld) : Except IOError Unit × List SysAction :=
  let m := composeMsg fd payload
  if w.rv < 0 then (.error (lastOsError w.errno), [.sendmsgCall sock m])
  else (.ok (), [.sendmsgCall sock m])

/-- `FdPassingExt::send_fd` default method (lib.rs 51-54): call
`send_fd_with_payload` with a zeroed `size_of::<c_int>()`-byte payload. -/
def RawFd.sendFd (sock : RawFd) (fd : Int) (w : SendWorld) :
    Except IOError Unit × List SysAction :=
  RawFd.sendFdWithPayload sock fd (List.replicate sizeofInt 0) w

/-! ## `recv_fd` on `RawFd` -/

/-- Kernel outcome of the one `recvmsg` call (plus the subsequent `fcntl`
outcome). The control-region fields are what the kernel wrote into the
staging buffer and `msghdr` on return. -/
structure RecvWorld where
  /-- return value of `recvmsg`. -/
  rv : Int
  /-- `errno` observed when `rv < 0`. -/
  recvErrno : Int
  /-- `msg_controllen` after the call. -/
  msg_controllen : Nat
  /-- `cmsg_level` of the first control header (when one is present). -/
  cmsg_level : Int
  /-- `cmsg_type` of the first control header. -/
  cmsg_type : Int
  /-- the native `int` readable at `CMSG_DATA` of the first header. -/
  fdData : Int
  /-- `msg_flags` after the call (e.g. `MSG_CTRUNC`). -/
  msg_flags : Int
  /-- return value of `fcntl(fd, F_SETFD, FD_CLOEXEC)` were it called. -/
  fcntlRv : Int
  /-- `errno` observed when the `fcntl` fails. -/
  fcntlErrno : Int
  deriving DecidableEq

/-- The control region is well formed for this codec: `CMSG_FIRSTHDR` is
non-null (the control length holds a `cmsghdr`), the advertised level/type
are `SOL_SOCKET`/`SCM_RIGHTS`, and `msg_controllen` equals
`CMSG_SPACE(sizeof(int))` (exactly one descriptor). -/
def ctrlOk (w : RecvWorld) : Prop :=
  sizeofCmsghdr ≤ w.msg_controllen ∧ w.cmsg_level = SOL_SOCKET ∧
    w.cmsg_type = SCM_RIGHTS ∧ w.msg_controllen = CMSG_SPACE sizeofInt

instance (w : RecvWorld) : Decidable (ctrlOk w) := by
  unfold ctrlOk; infer_instance

/-- The validation performed on the positive-`rv` branch of `recv_fd`
(lib.rs 160-182): null `CMSG_FIRSTHDR` check, level/type check,
`msg_controllen` equality check, then the unaligned read of the descriptor
from `CMSG_DATA` followed by `fcntl(F_SETFD, FD_CLOEXEC)`. -/
def validateCtrl (sock : RawFd) (w : RecvWorld) :
    Except IOError Int × List SysAction :=
  if ¬ sizeofCmsghdr ≤ w.msg_controllen then
    (.error { kind := .invalidData, msg := "missing control msg" },
      [.recvmsgCall sock])
  else if w.cmsg_level ≠ SOL_SOCKET ∨ w.cmsg_type ≠ SCM_RIGHTS then
    (.error { kind := .invalidData, msg := "bad control msg (level)" },
      [.recvmsgCall sock])
  else if w.msg_controllen ≠ CMSG_SPACE sizeofInt then
    (.error { kind := .invalidData, msg := "bad control msg (len)" },
      [.recvmsgCall sock])
  else if w.fcntlRv < 0 then
    (.error (lastOsError w.fcntlErrno),
      [.recvmsgCall sock, .fcntlCall w.fdData F_SETFD FD_CLOEXEC])
  else
    (.ok w.fdData,
      [.recvmsgCall sock, .fcntlCall w.fdData F_SETFD FD_CLOEXEC])

/-- `<RawFd as FdPassingExt>::recv_fd` (lib.rs 133-185): call `recvmsg`
once; `0` is `UnexpectedEof`, negative propagates the OS error, positive
proceeds to control-region validation. -/
def RawFd.recvFd (sock : RawFd) (w : RecvWorld) :
    Except IOError Int × List SysAction :=
  if w.rv = 0 then
    (.error { kind := .unexpectedEof, msg := "0 bytes read" },
      [.recvmsgCall sock])
  else if w.rv < 0 then
    (.error (lastOsError w.recvErrno), [.recvmsgCall sock])
  else validateCtrl sock w

/-! ## The `UnixStream` facade (lib.rs 61-69) -/

structure UnixStream where
  rawFd : RawFd

/-- `AsRawFd::as_raw_fd`. -/
def UnixStream.asRawFd (s : UnixStream) : RawFd := s.rawFd

/-- `<UnixStream as FdPassingExt>::send_fd_with_payload` (lib.rs 62-64):
extract the raw descriptor and forward. -/
def UnixStream.sendFdWithPayload (s : UnixStream) (fd : Int)
    (payload : List Nat) (w : SendWorld) : Except IOError Unit × List SysAction :=
  RawFd.sendFdWithPayload s.asRawFd fd payload w

/-- `<UnixStream as FdPassingExt>::recv_fd` (lib.rs 66-68). -/
def UnixStream.recvFd (s : UnixStream) (w : RecvWorld) :
    Except IOError Int × List SysAction :=
  RawFd.recvFd s.asRawFd w

/-- `send_fd` on `UnixStream` is the trait's default method, which calls
the stream's own `send_fd_with_payload`. -/
def UnixStream.sendFd (s : UnixStream) (fd : Int) (w : SendWorld) :
    Except IOError Unit × List SysAction :=
  UnixStream.sendFdWithPayload s fd (List.replicate sizeofInt 0) w

/-! ## tokio readiness adapter (src/tokio.rs) -/

/-- What can be inferred about one `PollRes` of the futures. -/
inductive PollRes (α : Type) where
  | pending
  | readyOk (a : α)
  | readyErr (e : IOError)
  deriving DecidableEq

/-- One iteration of `SendFd::poll`'s loop (tokio.rs 38-49), as observed
from outside: `poll_write_ready` is pending, or it fails, or readiness is
granted and `try_io` runs `stream_fd.send_fd(fd)` against a kernel state. -/
inductive SendEvent where
  | notReady
  | readyFail (e : IOError)
  | attempt (w : SendWorld)
  deriving DecidableEq

/-- Same for `RecvFd::poll`'s loop (tokio.rs 64-76), running
`stream_fd.recv_fd()`. -/
inductive RecvEvent where
  | notReady
  | readyFail (e : IOError)
  | attempt (w : RecvWorld)
  deriving DecidableEq

/-- `<SendFd as Future>::poll` (tokio.rs 34-50): loop awaiting writable
readiness; on readiness run `try_io(Writable, || stream_fd.send_fd(fd))`;
break `Ready(Ok(()))` on success, continue on a `WouldBlock`-kind error,
break `Ready(Err)` otherwise. An exhausted event list means the future has
not settled (it is still waiting on the reactor). -/
def SendFd.poll (sock : RawFd) (fd : Int) : List SendEvent → PollRes Unit
  | [] => .pending
  | .notReady :: _ => .pending
  | .readyFail e :: _ => .readyErr e
  | .attempt w :: rest =>
    match (RawFd.sendFd sock fd w).1 with
    | .ok _ => .readyOk ()
    | .error e =>
      if e.kind = .wouldBlock then SendFd.poll sock fd rest else .readyErr e

/-- `<RecvFd as Future>::poll` (tokio.rs 60-77): symmetric, with readable
readiness and `try_io(Readable, || stream_fd.recv_fd())`. -/
def RecvFd.poll (sock : RawFd) : List RecvEvent → PollRes Int
  | [] => .pending
  | .notReady :: _ => .pending
  | .readyFail e :: _ => .readyErr e
  | .attempt w :: rest =>
    match (RawFd.recvFd sock w).1 with
    | .ok v => .readyOk v
    | .error e =>
      if e.kind = .wouldBlock then RecvFd.poll sock rest else .readyErr e

/-! ## Concrete kernel outcomes used to instantiate the theorems -/

/-- a well-formed single-descriptor message carrying fd 7, `fcntl` succeeds. -/
def wOk : RecvWorld :=
  { rv := 1, recvErrno := 0, msg_controllen := 24, cmsg_level := 1
    cmsg_type := 1, fdData := 7, msg_flags := 0, fcntlRv := 0, fcntlErrno := 0 }

/-- `recvmsg` returned 0: peer closed. -/
def wEof : RecvWorld :=
  { rv := 0, recvErrno := 0, msg_controllen := 0, cmsg_level := 0
    cmsg_type := 0, fdData := 0, msg_flags := 0, fcntlRv := 0, fcntlErrno := 0 }

/-- `recvmsg` failed with `EAGAIN`. -/
def wAgain : RecvWorld :=
  { rv := -1, recvErrno := 11, msg_controllen := 0, cmsg_level := 0
    cmsg_type := 0, fdData := 0, msg_flags := 0, fcntlRv := 0, fcntlErrno := 0 }

/-- first control header advertises `SCM_CREDENTIALS`-style wrong type. -/
def wBadLevel : RecvWorld :=
  { rv := 1, recvErrno := 0, msg_controllen := 24, cmsg_level := 1
    cmsg_type := 2, fdData := 7, msg_flags := 0, fcntlRv := 0, fcntlErrno := 0 }

/-- a well-formed message carrying fd 9 whose `fcntl` step fails (`EACCES`). -/
def wFcntlFail : RecvWorld :=
  { rv := 1, recvErrno := 0, msg_controllen := 24, cmsg_level := 1
    cmsg_type := 1, fdData := 9, msg_flags := 0, fcntlRv := -1, fcntlErrno := 13 }

/-- a well-formed message carrying fd 7 with `MSG_CTRUNC` reported. -/
def wCtrunc : RecvWorld :=
  { rv := 1, recvErrno := 0, msg_controllen := 24, cmsg_level := 1
    cmsg_type := 1, fdData := 7, msg_flags := 8, fcntlRv := 0, fcntlErrno := 0 }

/-! ## Helper lemmas -/

/-- An `Error::last_os_error()` value never has kind `InvalidData`. -/
theorem lastOsError_kind_ne_invalidData (errno : Int) :
    (lastOsError errno).kind ≠ .invalidData := by
  unfold lastOsError
  split_ifs <;> simp

/-! ## Claim theorems -/

/-- C1: every descriptor returned successfully by `recv_fd` had
`fcntl(F_SETFD, FD_CLOEXEC)` applied to it before `recv_fd` returned, and
that `fcntl` call succeeded; moreover whenever the `fcntl` step would fail,
`recv_fd` never returns a descriptor — the failure is surfaced as an
error. -/
theorem recvFd_sets_cloexec (sock : RawFd) (w : RecvWorld) (fd : Int)
    (h : (RawFd.recvFd sock w).1 = .ok fd) :
    SysAction.fcntlCall fd F_SETFD FD_CLOEXEC ∈ (RawFd.recvFd sock w).2 ∧
    0 ≤ w.fcntlRv ∧
    (∀ w' : RecvWorld, w'.fcntlRv < 0 →
      ∀ g : Int, (RawFd.recvFd sock w').1 ≠ .ok g) := by
  refine ⟨?_, ?_, ?_⟩
  · unfold RawFd.recvFd validateCtrl at h ⊢
    split_ifs at h ⊢ <;> simp_all
  · unfold RawFd.recvFd validateCtrl at h
    split_ifs at h <;> simp_all
  · intro w' hneg g hok
    unfold RawFd.recvFd validateCtrl at hok
    split_ifs at hok <;> simp_all

/-- C1 witness: instantiated at the well-formed world `wOk`. -/
theorem recvFd_sets_cloexec_witness :
    SysAction.fcntlCall 7 F_SETFD FD_CLOEXEC ∈ (RawFd.recvFd 3 wOk).2 :=
  (recvFd_sets_cloexec 3 wOk 7 (by decide)).1

/-- C2 counterexample: in `wFcntlFail` the `recvmsg` call returned a
positive count, the carried descriptor 9 was extracted (the `fcntl` action
names it), `recv_fd` returns an error — yet no `close` is ever issued, so
the descriptor leaks. -/
theorem recvFd_error_no_close_cex :
    0 < wFcntlFail.rv ∧
    (RawFd.recvFd 3 wFcntlFail).1 = .error (lastOsError 13) ∧
    SysAction.fcntlCall 9 F_SETFD FD_CLOEXEC ∈ (RawFd.recvFd 3 wFcntlFail).2 ∧
    SysAction.closeCall 9 ∉ (RawFd.recvFd 3 wFcntlFail).2 := by
  decide

/-- C2 amended: `recv_fd` performs no `close` at all; when it fails after
`recvmsg` returned a positive count, the error is surfaced without closing
the extracted descriptor. -/
theorem recvFd_never_closes (sock : RawFd) (w : RecvWorld) (f : Int) :
    SysAction.closeCall f ∉ (RawFd.recvFd sock w).2 := by
  unfold RawFd.recvFd validateCtrl
  split_ifs <;> simp

/-- C4: `recv_fd` classifies the `recvmsg` return value: `0` yields an
`UnexpectedEof` error, negative propagates the OS error verbatim (in
particular `EAGAIN` surfaces as a `WouldBlock`-kind error with no retry:
the action trace holds exactly one `recvmsg` call), and only a positive
return proceeds to the control-region validation. -/
theorem recvFd_rv_classification (sock : RawFd) (w : RecvWorld) :
    (w.rv = 0 →
      (RawFd.recvFd sock w).1 =
        .error { kind := .unexpectedEof, msg := "0 bytes read" }) ∧
    (w.rv < 0 →
      (RawFd.recvFd sock w).1 = .error (lastOsError w.recvErrno)) ∧
    (w.rv < 0 → w.recvErrno = EAGAIN →
      (RawFd.recvFd sock w).1 = .error { kind := .wouldBlock, msg := "" }) ∧
    (0 < w.rv → RawFd.recvFd sock w = validateCtrl sock w) ∧
    ((RawFd.recvFd sock w).2 = [.recvmsgCall sock] ∨
      (RawFd.recvFd sock w).2 =
        [.recvmsgCall sock, .fcntlCall w.fdData F_SETFD FD_CLOEXEC]) := by
  refine ⟨?_, ?_, ?_, ?_, ?_⟩
  · intro h0
    unfold RawFd.recvFd
    simp [h0]
  · intro hneg
    have h0 : w.rv ≠ 0 := by omega
    unfold RawFd.recvFd
    simp [h0, hneg]
  · intro hneg hagain
    have h0 : w.rv ≠ 0 := by omega
    unfold RawFd.recvFd
    simp [h0, hneg, lastOsError, hagain]
  · intro hpos
    have h0 : w.rv ≠ 0 := by omega
    have hneg : ¬ w.rv < 0 := by omega
    unfold RawFd.recvFd
    simp [h0, hneg]
  · unfold RawFd.recvFd validateCtrl
    split_ifs <;> simp

/-- C4 witness: the `EAGAIN` world surfaces a `WouldBlock`-kind error. -/
theorem recvFd_rv_classification_witness :
    (RawFd.recvFd 3 wAgain).1 = .error { kind := .wouldBlock, msg := "" } :=
  (recvFd_rv_classification 3 wAgain).2.2.1 (by decide) (by decide)

/-- C3: after a positive `recvmsg` return, `recv_fd` fails with an
`InvalidData` error exactly when the control region is malformed, and the
diagnostic text distinguishes the fault: a missing first header, a wrong
`cmsg_level`/`cmsg_type`, or a `msg_controllen` different from
`CMSG_SPACE(sizeof(int))` (rejecting zero or more than one descriptor);
on a well-formed region the descriptor read from `CMSG_DATA` is the one
processed further. -/
theorem recvFd_invalid_ctrl (sock : RawFd) (w : RecvWorld) (h : 0 < w.rv) :
    ((∃ e, (RawFd.recvFd sock w).1 = .error e ∧ e.kind = .invalidData) ↔
      ¬ ctrlOk w) ∧
    (¬ sizeofCmsghdr ≤ w.msg_controllen →
      (RawFd.recvFd sock w).1 =
        .error { kind := .invalidData, msg := "missing control msg" }) ∧
    (sizeofCmsghdr ≤ w.msg_controllen →
      (w.cmsg_level ≠ SOL_SOCKET ∨ w.cmsg_type ≠ SCM_RIGHTS) →
      (RawFd.recvFd sock w).1 =
        .error { kind := .invalidData, msg := "bad control msg (level)" }) ∧
    (sizeofCmsghdr ≤ w.msg_controllen → w.cmsg_level = SOL_SOCKET →
      w.cmsg_type = SCM_RIGHTS → w.msg_controllen ≠ CMSG_SPACE sizeofInt →
      (RawFd.recvFd sock w).1 =
        .error { kind := .invalidData, msg := "bad control msg (len)" }) ∧
    (ctrlOk w →
      SysAction.fcntlCall w.fdData F_SETFD FD_CLOEXEC ∈ (RawFd.recvFd sock w).2 ∧
      ((RawFd.recvFd sock w).1 = .ok w.fdData ∨
        (RawFd.recvFd sock w).1 = .error (lastOsError w.fcntlErrno))) := by
  have h0 : w.rv ≠ 0 := by omega
  have hneg : ¬ w.rv < 0 := by omega
  have hval : RawFd.recvFd sock w = validateCtrl sock w := by
    unfold RawFd.recvFd
    simp [h0, hneg]
  rw [hval]
  unfold validateCtrl
  refine ⟨?_, ?_, ?_, ?_, ?_⟩
  · constructor
    · rintro ⟨e, he, hk⟩ hctrl
      obtain ⟨h1, h2, h3, h4⟩ := hctrl
      rw [if_neg (not_not_intro h1), if_neg (by simp [h2, h3]),
        if_neg (not_not_intro h4)] at he
      split_ifs at he with h5
      have hee : lastOsError w.fcntlErrno = e := by simpa using he
      subst hee
      exact lastOsError_kind_ne_invalidData _ hk
    · intro hctrl
      split_ifs with h1 h2 h3 h4 <;>
        simp_all [ctrlOk]
  · intro h1
    split_ifs <;> simp_all
  · intro h1 h2
    split_ifs <;> simp_all
  · intro h1 h2 h3 h4
    split_ifs <;> simp_all
  · rintro ⟨h1, h2, h3, h4⟩
    split_ifs <;> simp_all

/-- C3 witness: the wrong-type world is rejected with the level
diagnostic. -/
theorem recvFd_invalid_ctrl_witness :
    (RawFd.recvFd 3 wBadLevel).1 =
      .error { kind := .invalidData, msg := "bad control msg (level)" } :=
  (recvFd_invalid_ctrl 3 wBadLevel (by decide)).2.2.1 (by decide) (by decide)

/-- C5: `send_fd_with_payload` composes a message with one iovec over the
payload bytes, `msg_controllen = CMSG_SPACE(sizeof(int))`, a single cmsg
header `SOL_SOCKET`/`SCM_RIGHTS`/`CMSG_LEN(sizeof(int))`, the fd written
at `CMSG_DATA` into a zeroed staging buffer, calls `sendmsg` exactly once
on it, and returns `Ok` iff `sendmsg` returned a non-negative count,
otherwise the underlying OS error. -/
theorem sendFdWithPayload_composition (sock : RawFd) (fd : Int)
    (payload : List Nat) (w : SendWorld) :
    (RawFd.sendFdWithPayload sock fd payload w).2 =
      [.sendmsgCall sock (composeMsg fd payload)] ∧
    ((RawFd.sendFdWithPayload sock fd payload w).1 = .ok () ↔ 0 ≤ w.rv) ∧
    (w.rv < 0 →
      (RawFd.sendFdWithPayload sock fd payload w).1 =
        .error (lastOsError w.errno)) ∧
    (composeMsg fd payload).hdr.cmsg_level = SOL_SOCKET ∧
    (composeMsg fd payload).hdr.cmsg_type = SCM_RIGHTS ∧
    (composeMsg fd payload).hdr.cmsg_len = CMSG_LEN sizeofInt ∧
    (composeMsg fd payload).fdData = fd ∧
    (composeMsg fd payload).msg_controllen = CMSG_SPACE sizeofInt ∧
    (composeMsg fd payload).ctrlInit = List.replicate 256 0 ∧
    (composeMsg fd payload).iov_len = payload.length ∧
    (composeMsg fd payload).payload = payload := by
  refine ⟨?_, ?_, ?_, rfl, rfl, rfl, rfl, rfl, rfl, rfl, rfl⟩
  · unfold RawFd.sendFdWithPayload
    split_ifs <;> rfl
  · unfold RawFd.sendFdWithPayload
    split_ifs with h1 <;> simp <;> omega
  · intro hneg
    unfold RawFd.sendFdWithPayload
    simp [hneg]

/-- C5 witness: a two-byte payload with a successful `sendmsg`. -/
theorem sendFdWithPayload_composition_witness :
    (RawFd.sendFdWithPayload 3 5 [104, 105] { rv := 2, errno := 0 }).1 =
      .ok () :=
  (sendFdWithPayload_composition 3 5 [104, 105] { rv := 2, errno := 0 }).2.1.mpr
    (by decide)

/-- Helper for C6: `SendFd::poll` settles with an error only of
non-`WouldBlock` kind, provided the readiness primitive itself never fails
with `WouldBlock` (it suspends instead; tokio's contract). -/
theorem sendPoll_no_wouldBlock (sock : RawFd) (fd : Int) :
    ∀ ls : List SendEvent,
      (∀ e, SendEvent.readyFail e ∈ ls → e.kind ≠ .wouldBlock) →
      ∀ e, SendFd.poll sock fd ls = .readyErr e → e.kind ≠ .wouldBlock := by
  intro ls
  induction ls with
  | nil =>
    intro _ e h
    simp [SendFd.poll] at h
  | cons hd tl ih =>
    intro hall e h
    cases hd with
    | notReady => simp [SendFd.poll] at h
    | readyFail e' =>
      have he : e' = e := by simpa [SendFd.poll] using h
      exact he ▸ hall e' (by simp)
    | attempt w =>
      cases hsf : (RawFd.sendFd sock fd w).1 with
      | ok a => simp [SendFd.poll, hsf] at h
      | error e'' =>
        simp only [SendFd.poll, hsf] at h
        split_ifs at h with hk
        · exact ih (fun x hx => hall x (List.mem_cons_of_mem _ hx)) e h
        · have he : e'' = e := by simpa using h
          exact he ▸ hk

/-- Helper for C6: same for `RecvFd::poll`. -/
theorem recvPoll_no_wouldBlock (sock : RawFd) :
    ∀ lr : List RecvEvent,
      (∀ e, RecvEvent.readyFail e ∈ lr → e.kind ≠ .wouldBlock) →
      ∀ e, RecvFd.poll sock lr = .readyErr e → e.kind ≠ .wouldBlock := by
  intro lr
  induction lr with
  | nil =>
    intro _ e h
    simp [RecvFd.poll] at h
  | cons hd tl ih =>
    intro hall e h
    cases hd with
    | notReady => simp [RecvFd.poll] at h
    | readyFail e' =>
      have he : e' = e := by simpa [RecvFd.poll] using h
      exact he ▸ hall e' (by simp)
    | attempt w =>
      cases hsf : (RawFd.recvFd sock w).1 with
      | ok a => simp [RecvFd.poll, hsf] at h
      | error e'' =>
        simp only [RecvFd.poll, hsf] at h
        split_ifs at h with hk
        · exact ih (fun x hx => hall x (List.mem_cons_of_mem _ hx)) e h
        · have he : e'' = e := by simpa using h
          exact he ▸ hk

/-- C6: the async `send_fd` and `recv_fd` futures never settle with a
`WouldBlock`-kind error: a `WouldBlock` result of the inner codec call
makes the loop go back to awaiting readiness, and the future settles only
on success or a non-`WouldBlock` error (the readiness primitive itself is
assumed never to fail with `WouldBlock` — it returns `Pending` instead). -/
theorem asyncPoll_no_wouldBlock (sock : RawFd) (fd : Int)
    (ls : List SendEvent) (lr : List RecvEvent)
    (hs : ∀ e, SendEvent.readyFail e ∈ ls → e.kind ≠ .wouldBlock)
    (hr : ∀ e, RecvEvent.readyFail e ∈ lr → e.kind ≠ .wouldBlock) :
    (∀ e, SendFd.poll sock fd ls = .readyErr e → e.kind ≠ .wouldBlock) ∧
    (∀ e, RecvFd.poll sock lr = .readyErr e → e.kind ≠ .wouldBlock) ∧
    (∀ (w : SendWorld) (rest : List SendEvent) e,
      (RawFd.sendFd sock fd w).1 = .error e → e.kind = .wouldBlock →
      SendFd.poll sock fd (.attempt w :: rest) = SendFd.poll sock fd rest) ∧
    (∀ (w : RecvWorld) (rest : List RecvEvent) e,
      (RawFd.recvFd sock w).1 = .error e → e.kind = .wouldBlock →
      RecvFd.poll sock (.attempt w :: rest) = RecvFd.poll sock rest) := by
  refine ⟨sendPoll_no_wouldBlock sock fd ls hs,
    recvPoll_no_wouldBlock sock lr hr, ?_, ?_⟩
  · intro w rest e hw hk
    simp [SendFd.poll, hw, hk]
  · intro w rest e hw hk
    simp [RecvFd.poll, hw, hk]

/-- C6 witness: a first attempt hitting `EAGAIN` is skipped, the loop
continues with the remaining readiness events. -/
theorem asyncPoll_no_wouldBlock_witness :
    SendFd.poll 3 5
        [SendEvent.attempt { rv := -1, errno := 11 },
          SendEvent.attempt { rv := 4, errno := 0 }] =
      SendFd.poll 3 5 [SendEvent.attempt { rv := 4, errno := 0 }] :=
  (asyncPoll_no_wouldBlock 3 5 [] []
      (by intro e h; simp at h) (by intro e h; simp at h)).2.2.1
    { rv := -1, errno := 11 } [SendEvent.attempt { rv := 4, errno := 0 }]
    (lastOsError 11) (by decide) (by decide)

/-- C7: the `UnixStream` implementation of the trait forwards each
operation to the raw-descriptor implementation on `as_raw_fd()`, adding
nothing: the two entry points are equal as functions of the kernel
outcome, and the default `send_fd` agrees as well. -/
theorem unixStream_forwarding (s : UnixStream) (fd : Int)
    (payload : List Nat) (w : SendWorld) (w' : RecvWorld) :
    UnixStream.sendFdWithPayload s fd payload w =
      RawFd.sendFdWithPayload s.asRawFd fd payload w ∧
    UnixStream.recvFd s w' = RawFd.recvFd s.asRawFd w' ∧
    UnixStream.sendFd s fd w = RawFd.sendFd s.asRawFd fd w :=
  ⟨rfl, rfl, rfl⟩

/-- C8: `send_fd` without an explicit payload sends exactly the four-byte
zero payload `[0,0,0,0]` (one zero-initialized `c_int`-sized word): it is
the same function as `send_fd_with_payload` at that buffer, and the
message handed to `sendmsg` carries those bytes with `iov_len = 4`. -/
theorem sendFd_default_payload (sock : RawFd) (fd : Int) (w : SendWorld) :
    RawFd.sendFd sock fd w = RawFd.sendFdWithPayload sock fd [0, 0, 0, 0] w ∧
    (RawFd.sendFd sock fd w).2 =
      [.sendmsgCall sock (composeMsg fd [0, 0, 0, 0])] ∧
    (composeMsg fd [0, 0, 0, 0]).payload = [0, 0, 0, 0] ∧
    (composeMsg fd [0, 0, 0, 0]).iov_len = 4 := by
  refine ⟨rfl, ?_, rfl, rfl⟩
  unfold RawFd.sendFd RawFd.sendFdWithPayload
  split_ifs <;> rfl

/-- C9 counterexample: in `wCtrunc` the kernel reports `MSG_CTRUNC` in
`msg_flags`, yet `recv_fd` returns the descriptor successfully instead of
an `InvalidData` error — there is no explicit `MSG_CTRUNC` check. -/
theorem recvFd_ctrunc_cex :
    wCtrunc.msg_flags = MSG_CTRUNC ∧ (RawFd.recvFd 3 wCtrunc).1 = .ok 7 := by
  decide

/-- C9 amended: `recv_fd` never inspects `msg_flags`; its result and
actions are unchanged by `MSG_CTRUNC`, so truncated control data is
rejected only insofar as the strict `msg_controllen` equality comparison
fails. -/
theorem recvFd_ignores_msg_flags (sock : RawFd) (w : RecvWorld)
    (flags : Int) :
    RawFd.recvFd sock { w with msg_flags := flags } = RawFd.recvFd sock w := by
  cases w
  rfl

/-- C10: `send_fd_with_payload` imposes no precondition on the payload: on
an empty slice it performs no validation (an error can only be the OS
error of `sendmsg`, never `InvalidData`), still calls `sendmsg` once with
a single iovec of length 0, and succeeds iff `sendmsg` returns a
non-negative count. -/
theorem sendFdWithPayload_empty_payload (sock : RawFd) (fd : Int)
    (w : SendWorld) :
    (RawFd.sendFdWithPayload sock fd [] w).2 =
      [.sendmsgCall sock (composeMsg fd [])] ∧
    (composeMsg fd []).iov_len = 0 ∧
    ((RawFd.sendFdWithPayload sock fd [] w).1 = .ok () ↔ 0 ≤ w.rv) ∧
    (∀ e, (RawFd.sendFdWithPayload sock fd [] w).1 = .error e →
      e.kind ≠ .invalidData) := by
  refine ⟨?_, rfl, ?_, ?_⟩
  · unfold RawFd.sendFdWithPayload
    split_ifs <;> rfl
  · unfold RawFd.sendFdWithPayload
    split_ifs with h1 <;> simp <;> omega
  · intro e he
    unfold RawFd.sendFdWithPayload at he
    split_ifs at he with h1
    have hee : lastOsError w.errno = e := by simpa using he
    exact hee ▸ lastOsError_kind_ne_invalidData w.errno

/-- C10 witness: the empty payload with `sendmsg` returning 0 succeeds. -/
theorem sendFdWithPayload_empty_payload_witness :
    (RawFd.sendFdWithPayload 3 5 [] { rv := 0, errno := 0 }).1 = .ok () :=
  (sendFdWithPayload_empty_payload 3 5 { rv := 0, errno := 0 }).2.2.1.mpr
    (by decide)

end Passfd
